import Mathlib

/-!
Verification of the md5sum GStreamer element (src/gstmd5sum.c).

The development shallowly embeds the per-buffer processing logic of the
element: the in-place transform `gst_md5sum_transform_ip`, the instance
initialiser `gst_md5sum_init`, and the property accessors
`gst_md5sum_set_property` / `gst_md5sum_get_property`.  Machine integers
are modelled as `Nat` with explicit reduction modulo 2^32 where the C code
overflows; observable side effects (controller synchronisation, the
`g_print` marker, the two `g_message` log lines) are modelled as an
explicit list of events returned by the transform.
-/

/-! ## MD5 (GLib `g_checksum` with `G_CHECKSUM_MD5`)

An executable MD5 over byte lists, used to model
`g_checksum_new` / `g_checksum_update` / `g_checksum_get_string`
(RFC 1321; `g_checksum_get_string` yields lowercase hex). -/

namespace MD5

def add32 (a b : Nat) : Nat := (a + b) % 4294967296

def compl32 (x : Nat) : Nat := 4294967295 ^^^ x

def rotl32 (x s : Nat) : Nat :=
  (((x <<< s) % 4294967296) ||| (x >>> (32 - s)))

def fF (b c d : Nat) : Nat := (b &&& c) ||| (compl32 b &&& d)

def fG (b c d : Nat) : Nat := (d &&& b) ||| (compl32 d &&& c)

def fH (b c d : Nat) : Nat := b ^^^ c ^^^ d

def fI (b c d : Nat) : Nat := c ^^^ (b ||| compl32 d)

/-- The 64 sine-derived round constants of RFC 1321. -/
def K : List Nat :=
  [0xd76aa478, 0xe8c7b756, 0x242070db, 0xc1bdceee,
   0xf57c0faf, 0x4787c62a, 0xa8304613, 0xfd469501,
   0x698098d8, 0x8b44f7af, 0xffff5bb1, 0x895cd7be,
   0x6b901122, 0xfd987193, 0xa679438e, 0x49b40821,
   0xf61e2562, 0xc040b340, 0x265e5a51, 0xe9b6c7aa,
   0xd62f105d, 0x02441453, 0xd8a1e681, 0xe7d3fbc8,
   0x21e1cde6, 0xc33707d6, 0xf4d50d87, 0x455a14ed,
   0xa9e3e905, 0xfcefa3f8, 0x676f02d9, 0x8d2a4c8a,
   0xfffa3942, 0x8771f681, 0x6d9d6122, 0xfde5380c,
   0xa4beea44, 0x4bdecfa9, 0xf6bb4b60, 0xbebfbc70,
   0x289b7ec6, 0xeaa127fa, 0xd4ef3085, 0x04881d05,
   0xd9d4d039, 0xe6db99e5, 0x1fa27cf8, 0xc4ac5665,
   0xf4292244, 0x432aff97, 0xab9423a7, 0xfc93a039,
   0x655b59c3, 0x8f0ccc92, 0xffeff47d, 0x85845dd1,
   0x6fa87e4f, 0xfe2ce6e0, 0xa3014314, 0x4e0811a1,
   0xf7537e82, 0xbd3af235, 0x2ad7d2bb, 0xeb86d391]

/-- Per-round left-rotation amounts of RFC 1321. -/
def S : List Nat :=
  [7, 12, 17, 22, 7, 12, 17, 22, 7, 12, 17, 22, 7, 12, 17, 22,
   5, 9, 14, 20, 5, 9, 14, 20, 5, 9, 14, 20, 5, 9, 14, 20,
   4, 11, 16, 23, 4, 11, 16, 23, 4, 11, 16, 23, 4, 11, 16, 23,
   6, 10, 15, 21, 6, 10, 15, 21, 6, 10, 15, 21, 6, 10, 15, 21]

structure St where
  a : Nat
  b : Nat
  c : Nat
  d : Nat
deriving Repr, DecidableEq

/-- Group a block of bytes into little-endian 32-bit words. -/
def toWords : List Nat → List Nat
  | b0 :: b1 :: b2 :: b3 :: rest =>
      (b0 + b1 * 256 + b2 * 65536 + b3 * 16777216) :: toWords rest
  | _ => []

/-- One of the 64 MD5 round operations. -/
def step (M : List Nat) (st : St) (i : Nat) : St :=
  let fg : Nat × Nat :=
    if i < 16 then (fF st.b st.c st.d, i)
    else if i < 32 then (fG st.b st.c st.d, (5 * i + 1) % 16)
    else if i < 48 then (fH st.b st.c st.d, (3 * i + 5) % 16)
    else (fI st.b st.c st.d, (7 * i) % 16)
  let tmp := add32 (add32 (add32 st.a fg.1) (K.getD i 0)) (M.getD fg.2 0)
  { a := st.d, b := add32 st.b (rotl32 tmp (S.getD i 0)), c := st.b, d := st.c }

/-- Compress one 64-byte block into the running state. -/
def compress (st : St) (block : List Nat) : St :=
  let M := toWords block
  let r := (List.range 64).foldl (step M) st
  { a := add32 st.a r.a, b := add32 st.b r.b,
    c := add32 st.c r.c, d := add32 st.d r.d }

/-- The message length in bits, as 8 little-endian bytes. -/
def lenBytes (len : Nat) : List Nat :=
  (List.range 8).map (fun i => ((len * 8) >>> (8 * i)) % 256)

/-- RFC 1321 padding: a 0x80 byte, zeros to 56 mod 64, then the bit length. -/
def padMsg (msg : List Nat) : List Nat :=
  msg ++ 128 :: List.replicate ((119 - msg.length % 64) % 64) 0
      ++ lenBytes msg.length

/-- Fold `compress` over the given number of 64-byte blocks. -/
def processBlocks : Nat → St → List Nat → St
  | 0, st, _ => st
  | n + 1, st, l => processBlocks n (compress st (l.take 64)) (l.drop 64)

def wordLE (w : Nat) : List Nat :=
  [w % 256, (w >>> 8) % 256, (w >>> 16) % 256, (w >>> 24) % 256]

/-- The 16-byte MD5 digest of a byte sequence. -/
def md5Bytes (msg : List Nat) : List Nat :=
  let p := padMsg msg
  let st := processBlocks (p.length / 64)
      { a := 0x67452301, b := 0xefcdab89, c := 0x98badcfe, d := 0x10325476 } p
  wordLE st.a ++ wordLE st.b ++ wordLE st.c ++ wordLE st.d

def hexChar (n : Nat) : Char :=
  if n < 10 then Char.ofNat (48 + n) else Char.ofNat (87 + n)

def byteHex (b : Nat) : List Char := [hexChar (b / 16), hexChar (b % 16)]

/-- The digest as the 32-character lowercase hex string that
`g_checksum_get_string` returns. -/
def md5Hex (msg : List Nat) : String :=
  ⟨(md5Bytes msg).foldr (fun b acc => byteHex b ++ acc) []⟩

end MD5

/-! ## The md5sum element (src/gstmd5sum.c)

The claims concern `gst_md5sum_init`, `gst_md5sum_set_property`,
`gst_md5sum_get_property` and `gst_md5sum_transform_ip`.

A note on `gst_md5sum_transform_ip`, line 193 of the source:

  g_checksum_update(md5sum, outbuf, GST_BUFFER_SIZE(outbuf));

The second argument is `outbuf` itself — the `GstBuffer *` struct
pointer — not `GST_BUFFER_DATA (outbuf)`, the pointer to the payload
bytes.  The checksum is therefore fed `GST_BUFFER_SIZE (outbuf)` bytes of
the in-memory `GstBuffer` struct header, and the payload is never read.
The model keeps both byte sequences in the buffer record: `data` is the
payload that `GST_BUFFER_DATA` designates, `structBytes` is the raw
memory starting at the struct address, which is what the call above
actually hashes.  (When the requested size runs past the bytes the
model carries, `List.take` truncates; in C that read is undefined
behaviour.) -/

/-- GStreamer 0.10 `GST_CLOCK_TIME_NONE`: `(guint64)-1`. -/
def GST_CLOCK_TIME_NONE : Nat := 2 ^ 64 - 1

/-- `GST_CLOCK_TIME_IS_VALID (t)` ≡ `t != GST_CLOCK_TIME_NONE`. -/
def GST_CLOCK_TIME_IS_VALID (t : Nat) : Bool := t != GST_CLOCK_TIME_NONE

/-- A GStreamer 0.10 buffer, as the element sees it: a timestamp
(`GST_BUFFER_TIMESTAMP`, a `guint64` in `Nat`), the declared size
(`GST_BUFFER_SIZE`), the payload bytes at `GST_BUFFER_DATA`, and the raw
bytes of memory at the struct address itself (see the note above). -/
structure GstBuffer where
  timestamp : Nat
  size : Nat
  data : List Nat
  structBytes : List Nat
deriving Repr, DecidableEq

/-- A buffer is well formed when its payload is readable for its full
declared size. -/
def GstBuffer.wellFormed (b : GstBuffer) : Prop := b.size ≤ b.data.length

/-- The element instance struct: its only state is the `silent` flag. -/
structure Gstmd5sum where
  silent : Bool
deriving Repr, DecidableEq

/-- `GstFlowReturn` values that matter here. -/
inductive GstFlowReturn where
  | GST_FLOW_OK
  | GST_FLOW_ERROR
deriving Repr, DecidableEq

/-- Property ids installed by `gst_md5sum_class_init`. -/
def PROP_0 : Nat := 0

def PROP_SILENT : Nat := 1

/-- `gst_md5sum_init`: `filter->silent = FALSE;`. -/
def gst_md5sum_init : Gstmd5sum := { silent := false }

/-- `gst_md5sum_set_property`: writes `filter->silent` on `PROP_SILENT`
(`g_value_get_boolean`); any other id only warns and writes nothing. -/
def gst_md5sum_set_property (filter : Gstmd5sum) (prop_id : Nat)
    (value : Bool) : Gstmd5sum :=
  if prop_id = PROP_SILENT then { filter with silent := value } else filter

/-- `gst_md5sum_get_property`: fills the out-`GValue` from
`filter->silent` on `PROP_SILENT`; any other id only warns and writes
nothing (modelled as `none`). -/
def gst_md5sum_get_property (filter : Gstmd5sum) (prop_id : Nat) :
    Option Bool :=
  if prop_id = PROP_SILENT then some filter.silent else none

/-- Observable side effects of one `gst_md5sum_transform_ip` call:
the `gst_object_sync_values` call, the `g_print` marker line, and the
two `g_message` lines (size, then digest). -/
inductive Event where
  | syncValues (ts : Nat)
  | marker
  | sizeLog (n : Nat)
  | digestLog (s : String)
deriving Repr, DecidableEq

/-- The filter state after the `gst_object_sync_values` call at the top
of `gst_md5sum_transform_ip`.  The `silent` property is installed
`GST_PARAM_CONTROLLABLE`, so the controller (`syncAt`, the scheduler
collaborator) may rewrite it at the buffer timestamp; without a valid
timestamp no synchronisation happens. -/
def filter_after_sync (syncAt : Nat → Bool → Bool) (filter : Gstmd5sum)
    (outbuf : GstBuffer) : Gstmd5sum :=
  if GST_CLOCK_TIME_IS_VALID outbuf.timestamp then
    { silent := syncAt outbuf.timestamp filter.silent }
  else filter

/-- The hex digest that line 193–194 of the source computes: MD5 over
`GST_BUFFER_SIZE (outbuf)` bytes starting at the struct address
(`outbuf`, not `GST_BUFFER_DATA (outbuf)`). -/
def computed_digest (outbuf : GstBuffer) : String :=
  MD5.md5Hex (outbuf.structBytes.take outbuf.size)

/-- Result of one `gst_md5sum_transform_ip` call: the returned
`GstFlowReturn`, the emitted events in order, the filter state after the
call, and the buffer as left in memory (the transform is in place and
never writes to it). -/
structure TransformResult where
  flow : GstFlowReturn
  logs : List Event
  filter : Gstmd5sum
  outbuf : GstBuffer
deriving Repr, DecidableEq

/-- `gst_md5sum_transform_ip`, lines 179–198 of the source:

1. if `GST_CLOCK_TIME_IS_VALID (GST_BUFFER_TIMESTAMP (outbuf))`,
   call `gst_object_sync_values` at that timestamp;
2. if `filter->silent == FALSE`, `g_print` the marker line;
3. `g_message` the buffer size;
4. feed the checksum `GST_BUFFER_SIZE (outbuf)` bytes starting at
   `outbuf` (the struct pointer — see the note above) and
   `g_message` the resulting hex digest;
5. return `GST_FLOW_OK`. -/
def gst_md5sum_transform_ip (syncAt : Nat → Bool → Bool)
    (filter : Gstmd5sum) (outbuf : GstBuffer) : TransformResult :=
  let filter1 := filter_after_sync syncAt filter outbuf
  { flow := GstFlowReturn.GST_FLOW_OK
    logs :=
      (if GST_CLOCK_TIME_IS_VALID outbuf.timestamp then
        [Event.syncValues outbuf.timestamp] else [])
      ++ (if filter1.silent = false then [Event.marker] else [])
      ++ [Event.sizeLog outbuf.size, Event.digestLog (computed_digest outbuf)]
    filter := filter1
    outbuf := outbuf }

/-! ## Auxiliary computations -/

set_option maxRecDepth 1000000

/-- MD5 of the empty byte sequence. -/
theorem md5Hex_nil : MD5.md5Hex [] = "d41d8cd98f00b204e9800998ecf8427e" := by
  decide

/-- MD5 of the payload "abc" is the known-vector value. -/
theorem md5Hex_abc :
    MD5.md5Hex [97, 98, 99] = "900150983cd24fb0d6963f7d28e17f72" := by
  decide

/-- MD5 of three zero bytes (a stand-in for the first three bytes of the
`GstBuffer` struct header) differs from MD5 of "abc". -/
theorem md5Hex_three_zeros_ne_abc :
    MD5.md5Hex [0, 0, 0] ≠ "900150983cd24fb0d6963f7d28e17f72" := by
  decide

/-- Evaluating the transform on the "abc" buffer: what it logs is the
digest of the struct-header bytes, not of the payload. -/
theorem transform_abc_eval :
    (gst_md5sum_transform_ip (fun _ s => s) gst_md5sum_init
        { timestamp := GST_CLOCK_TIME_NONE, size := 3,
          data := [97, 98, 99], structBytes := [0, 0, 0] }).logs
      = [Event.marker, Event.sizeLog 3,
         Event.digestLog (MD5.md5Hex [0, 0, 0])] := rfl

/-- The logged digest does not depend on the payload bytes at all. -/
theorem transform_abc_payload_independent :
    ∀ d : List Nat,
      (gst_md5sum_transform_ip (fun _ s => s) gst_md5sum_init
        { timestamp := GST_CLOCK_TIME_NONE, size := 3,
          data := d, structBytes := [0, 0, 0] }).logs
      = (gst_md5sum_transform_ip (fun _ s => s) gst_md5sum_init
          { timestamp := GST_CLOCK_TIME_NONE, size := 3,
            data := [97, 98, 99], structBytes := [0, 0, 0] }).logs :=
  fun _ => rfl

/-! ## Claims -/

/-- C1: the spec claims `process` on the 3-byte payload "abc" logs the
digest `900150983cd24fb0d6963f7d28e17f72` (MD5 of the payload) and size 3.
`900150...` is indeed MD5 of "abc" (first conjunct), but line 193 of the
source hashes the struct header bytes, not the payload: on a buffer with
payload "abc" and struct-header bytes `[0, 0, 0]` the element logs size 3
together with the digest of those header bytes (second conjunct), which is
not the claimed value (third conjunct); indeed the logged digest does not
depend on the payload at all (fourth conjunct). -/
theorem c1_digest_not_over_payload :
    MD5.md5Hex [97, 98, 99] = "900150983cd24fb0d6963f7d28e17f72"
    ∧ (gst_md5sum_transform_ip (fun _ s => s) gst_md5sum_init
        { timestamp := GST_CLOCK_TIME_NONE, size := 3,
          data := [97, 98, 99], structBytes := [0, 0, 0] }).logs
      = [Event.marker, Event.sizeLog 3,
         Event.digestLog (MD5.md5Hex [0, 0, 0])]
    ∧ MD5.md5Hex [0, 0, 0] ≠ "900150983cd24fb0d6963f7d28e17f72"
    ∧ ∀ d : List Nat,
        (gst_md5sum_transform_ip (fun _ s => s) gst_md5sum_init
          { timestamp := GST_CLOCK_TIME_NONE, size := 3,
            data := d, structBytes := [0, 0, 0] }).logs
        = (gst_md5sum_transform_ip (fun _ s => s) gst_md5sum_init
            { timestamp := GST_CLOCK_TIME_NONE, size := 3,
              data := [97, 98, 99], structBytes := [0, 0, 0] }).logs :=
  ⟨md5Hex_abc, transform_abc_eval, md5Hex_three_zeros_ne_abc,
   transform_abc_payload_independent⟩

/-- C2: the marker is emitted exactly once when the silent flag, as read
after the controller synchronisation at the moment of processing, is
`false`, and not at all when it is `true`; the size log entry and the
digest log entry are each emitted exactly once for every buffer,
regardless of the silent flag. -/
theorem c2_silent_gating (syncAt : Nat → Bool → Bool) (filter : Gstmd5sum)
    (outbuf : GstBuffer) :
    ((gst_md5sum_transform_ip syncAt filter outbuf).logs.count Event.marker
      = if (filter_after_sync syncAt filter outbuf).silent then 0 else 1)
    ∧ (gst_md5sum_transform_ip syncAt filter outbuf).logs.count
        (Event.sizeLog outbuf.size) = 1
    ∧ (gst_md5sum_transform_ip syncAt filter outbuf).logs.count
        (Event.digestLog (computed_digest outbuf)) = 1 := by
  cases hv : GST_CLOCK_TIME_IS_VALID outbuf.timestamp <;>
    cases hs : (filter_after_sync syncAt filter outbuf).silent <;>
      simp [gst_md5sum_transform_ip, hv, hs, List.count_append,
        List.count_cons, List.count_nil]

/-- C3: the per-buffer effects occur in the fixed order: controller
synchronisation (present exactly when the timestamp is valid, and first),
then the marker (gated by the silent flag as it stands after the
synchronisation), then the size log entry, then the digest log entry
carrying the digest computed from the buffer. -/
theorem c3_effect_order (syncAt : Nat → Bool → Bool) (filter : Gstmd5sum)
    (outbuf : GstBuffer) :
    (gst_md5sum_transform_ip syncAt filter outbuf).logs
      = (if GST_CLOCK_TIME_IS_VALID outbuf.timestamp
          then [Event.syncValues outbuf.timestamp] else [])
        ++ (if (filter_after_sync syncAt filter outbuf).silent
            then [] else [Event.marker])
        ++ [Event.sizeLog outbuf.size,
            Event.digestLog (computed_digest outbuf)] := by
  cases hs : (filter_after_sync syncAt filter outbuf).silent <;>
    simp [gst_md5sum_transform_ip, hs]

/-- C4: on a zero-length buffer the transform succeeds with
`GST_FLOW_OK`, logs size 0, and logs the MD5 empty-input digest
`d41d8cd98f00b204e9800998ecf8427e` (hashing zero bytes yields the
empty-input digest even though the code hashes from the struct
address). -/
theorem c4_empty_buffer (syncAt : Nat → Bool → Bool) (filter : Gstmd5sum)
    (outbuf : GstBuffer) (h : outbuf.size = 0) :
    (gst_md5sum_transform_ip syncAt filter outbuf).flow
      = GstFlowReturn.GST_FLOW_OK
    ∧ Event.sizeLog 0 ∈ (gst_md5sum_transform_ip syncAt filter outbuf).logs
    ∧ Event.digestLog "d41d8cd98f00b204e9800998ecf8427e"
        ∈ (gst_md5sum_transform_ip syncAt filter outbuf).logs := by
  have hd : computed_digest outbuf = "d41d8cd98f00b204e9800998ecf8427e" := by
    unfold computed_digest
    rw [h, List.take_zero, md5Hex_nil]
  refine ⟨rfl, ?_, ?_⟩ <;>
    simp [gst_md5sum_transform_ip, hd, h]

/-- Witness for C4 at the concrete empty buffer with no timestamp. -/
theorem c4_empty_buffer_witness :
    ({ timestamp := GST_CLOCK_TIME_NONE, size := 0, data := [],
       structBytes := [] } : GstBuffer).size = 0
    ∧ ((gst_md5sum_transform_ip (fun _ s => s) gst_md5sum_init
          { timestamp := GST_CLOCK_TIME_NONE, size := 0, data := [],
            structBytes := [] }).flow = GstFlowReturn.GST_FLOW_OK
      ∧ Event.sizeLog 0 ∈ (gst_md5sum_transform_ip (fun _ s => s)
          gst_md5sum_init
          { timestamp := GST_CLOCK_TIME_NONE, size := 0, data := [],
            structBytes := [] }).logs
      ∧ Event.digestLog "d41d8cd98f00b204e9800998ecf8427e"
          ∈ (gst_md5sum_transform_ip (fun _ s => s) gst_md5sum_init
              { timestamp := GST_CLOCK_TIME_NONE, size := 0, data := [],
                structBytes := [] }).logs) :=
  ⟨rfl, c4_empty_buffer _ _ _ rfl⟩

/-- C5: the transform is in place and never writes to the buffer: the
buffer handed back is the very input buffer, unchanged in timestamp,
size, payload and raw struct bytes. -/
theorem c5_passthrough (syncAt : Nat → Bool → Bool) (filter : Gstmd5sum)
    (outbuf : GstBuffer) :
    (gst_md5sum_transform_ip syncAt filter outbuf).outbuf = outbuf := rfl

/-- C6 counterexample: on the malformed buffer with declared size 5 but
only a 2-byte payload, the transform does not fail — it returns
`GST_FLOW_OK` — and it does emit the size log entry and a digest log
entry, contradicting the claim that it fails with a
`MalformedBufferError` and emits neither. -/
theorem c6_counterexample :
    (({ timestamp := GST_CLOCK_TIME_NONE, size := 5, data := [1, 2],
        structBytes := [0, 0, 0, 0, 0] } : GstBuffer).size
      > ({ timestamp := GST_CLOCK_TIME_NONE, size := 5, data := [1, 2],
           structBytes := [0, 0, 0, 0, 0] } : GstBuffer).data.length)
    ∧ (gst_md5sum_transform_ip (fun _ s => s) gst_md5sum_init
        { timestamp := GST_CLOCK_TIME_NONE, size := 5, data := [1, 2],
          structBytes := [0, 0, 0, 0, 0] }).flow = GstFlowReturn.GST_FLOW_OK
    ∧ Event.sizeLog 5 ∈ (gst_md5sum_transform_ip (fun _ s => s)
        gst_md5sum_init
        { timestamp := GST_CLOCK_TIME_NONE, size := 5, data := [1, 2],
          structBytes := [0, 0, 0, 0, 0] }).logs
    ∧ ∃ s, Event.digestLog s ∈ (gst_md5sum_transform_ip (fun _ s => s)
        gst_md5sum_init
        { timestamp := GST_CLOCK_TIME_NONE, size := 5, data := [1, 2],
          structBytes := [0, 0, 0, 0, 0] }).logs := by
  refine ⟨by decide, rfl, ?_, ?_⟩
  · simp [gst_md5sum_transform_ip]
  · exact ⟨computed_digest
        { timestamp := GST_CLOCK_TIME_NONE, size := 5, data := [1, 2],
          structBytes := [0, 0, 0, 0, 0] },
      by simp [gst_md5sum_transform_ip]⟩

/-- C6 amended: the code performs no bounds check at all: on a buffer
whose declared size exceeds its accessible payload length, the transform
still returns `GST_FLOW_OK` (there is no `MalformedBufferError` outcome
in the code) and still emits both the size log entry and the digest log
entry. -/
theorem c6_no_bounds_check (syncAt : Nat → Bool → Bool)
    (filter : Gstmd5sum) (outbuf : GstBuffer)
    (h : outbuf.size > outbuf.data.length) :
    (gst_md5sum_transform_ip syncAt filter outbuf).flow
      = GstFlowReturn.GST_FLOW_OK
    ∧ Event.sizeLog outbuf.size
        ∈ (gst_md5sum_transform_ip syncAt filter outbuf).logs
    ∧ Event.digestLog (computed_digest outbuf)
        ∈ (gst_md5sum_transform_ip syncAt filter outbuf).logs := by
  refine ⟨rfl, ?_, ?_⟩ <;> simp [gst_md5sum_transform_ip]

/-- Witness for the amended C6 at a concrete malformed buffer
(declared size 4, 1-byte payload). -/
theorem c6_no_bounds_check_witness :
    (({ timestamp := GST_CLOCK_TIME_NONE, size := 4, data := [7],
        structBytes := [9, 9, 9, 9] } : GstBuffer).size
      > ({ timestamp := GST_CLOCK_TIME_NONE, size := 4, data := [7],
           structBytes := [9, 9, 9, 9] } : GstBuffer).data.length)
    ∧ ((gst_md5sum_transform_ip (fun _ s => s) gst_md5sum_init
          { timestamp := GST_CLOCK_TIME_NONE, size := 4, data := [7],
            structBytes := [9, 9, 9, 9] }).flow = GstFlowReturn.GST_FLOW_OK
      ∧ Event.sizeLog ({ timestamp := GST_CLOCK_TIME_NONE, size := 4,
                         data := [7],
                         structBytes := [9, 9, 9, 9] } : GstBuffer).size
          ∈ (gst_md5sum_transform_ip (fun _ s => s) gst_md5sum_init
              { timestamp := GST_CLOCK_TIME_NONE, size := 4, data := [7],
                structBytes := [9, 9, 9, 9] }).logs
      ∧ Event.digestLog (computed_digest
            { timestamp := GST_CLOCK_TIME_NONE, size := 4, data := [7],
              structBytes := [9, 9, 9, 9] })
          ∈ (gst_md5sum_transform_ip (fun _ s => s) gst_md5sum_init
              { timestamp := GST_CLOCK_TIME_NONE, size := 4, data := [7],
                structBytes := [9, 9, 9, 9] }).logs) :=
  ⟨by decide, c6_no_bounds_check _ _ _ (by decide)⟩

/-- C7: for every well-formed buffer (payload readable for the full
declared size), in any filter state, under any controller, the transform
succeeds with `GST_FLOW_OK`: there is no data-path error outcome. -/
theorem c7_always_ok (syncAt : Nat → Bool → Bool) (filter : Gstmd5sum)
    (outbuf : GstBuffer) (h : outbuf.wellFormed) :
    (gst_md5sum_transform_ip syncAt filter outbuf).flow
      = GstFlowReturn.GST_FLOW_OK := rfl

/-- Witness for C7 at a concrete well-formed buffer. -/
theorem c7_always_ok_witness :
    ({ timestamp := 0, size := 2, data := [10, 20],
       structBytes := [1, 2, 3] } : GstBuffer).wellFormed
    ∧ (gst_md5sum_transform_ip (fun _ s => s) gst_md5sum_init
        { timestamp := 0, size := 2, data := [10, 20],
          structBytes := [1, 2, 3] }).flow = GstFlowReturn.GST_FLOW_OK :=
  ⟨by simp [GstBuffer.wellFormed],
   c7_always_ok _ _ _ (by simp [GstBuffer.wellFormed])⟩

/-- C8: `gst_md5sum_init` starts the element with `silent = false`, so a
freshly initialised element emits the verbose marker line for any buffer
processed before the flag is changed (no valid timestamp, hence no
controller update, in between). -/
theorem c8_default_not_silent (syncAt : Nat → Bool → Bool)
    (outbuf : GstBuffer) (h : outbuf.timestamp = GST_CLOCK_TIME_NONE) :
    gst_md5sum_init.silent = false
    ∧ Event.marker
        ∈ (gst_md5sum_transform_ip syncAt gst_md5sum_init outbuf).logs := by
  have hv : GST_CLOCK_TIME_IS_VALID outbuf.timestamp = false := by
    rw [h]; rfl
  refine ⟨rfl, ?_⟩
  simp [gst_md5sum_transform_ip, filter_after_sync, hv, gst_md5sum_init]

/-- Witness for C8 at a concrete buffer without timestamp. -/
theorem c8_default_not_silent_witness :
    ({ timestamp := GST_CLOCK_TIME_NONE, size := 1, data := [5],
       structBytes := [6] } : GstBuffer).timestamp = GST_CLOCK_TIME_NONE
    ∧ (gst_md5sum_init.silent = false
      ∧ Event.marker ∈ (gst_md5sum_transform_ip (fun _ s => s)
          gst_md5sum_init
          { timestamp := GST_CLOCK_TIME_NONE, size := 1, data := [5],
            structBytes := [6] }).logs) :=
  ⟨rfl, c8_default_not_silent _ _ rfl⟩

/-- C9: setting the silent property and then reading it back returns the
value just set, for every prior filter state and every boolean. -/
theorem c9_set_get_roundtrip (filter : Gstmd5sum) (v : Bool) :
    gst_md5sum_get_property
      (gst_md5sum_set_property filter PROP_SILENT v) PROP_SILENT
      = some v := rfl

/-- C10: `gst_md5sum_set_property` with any property id other than
`PROP_SILENT` leaves the whole filter state unchanged. -/
theorem c10_set_other_prop_noop (filter : Gstmd5sum) (prop_id : Nat)
    (v : Bool) (h : prop_id ≠ PROP_SILENT) :
    gst_md5sum_set_property filter prop_id v = filter := by
  simp [gst_md5sum_set_property, h]

/-- Witness for C10 at `PROP_0`. -/
theorem c10_set_other_prop_noop_witness :
    PROP_0 ≠ PROP_SILENT
    ∧ gst_md5sum_set_property { silent := true } PROP_0 false
        = { silent := true } :=
  ⟨by decide, c10_set_other_prop_noop _ _ _ (by decide)⟩
